import Mathlib

/-!
Verification of the mutation write-back stage
(`src/query/storages/fuse/src/operations/mutation/serialize_data_transform.rs`)
against its natural-language specification.

The stage is a pipeline processor with four internal states
(`Consume`, `NeedSerialize`, `Serialized`, `Output`) driven by `event()`,
a synchronous `process()` and an asynchronous `async_process()`.
External collaborators (ports, the storage operator, the parquet writer,
the bloom-index builder, the statistics generators) live outside the
verified source file; they are modelled from the spec as opaque data or
as function parameters, exactly at the granularity the source consumes
them.
-/

/-- Opaque cluster statistics (external type, consumed as a black box). -/
abbrev ClusterStatistics := Nat

/-- Rust `crate::pruning::BlockIndex`: position of the original block,
a (segment index, block index) pair. -/
abbrev BlockIndex := Nat × Nat

/-- A storage location: path plus format version (Rust `(String, u64)`). -/
abbrev Location := String × Nat

/-- Serialized byte buffers, modelled as lists of bytes. -/
abbrev Bytes := List Nat

/-- Opaque table compression codec (external type). -/
abbrev TableCompression := Nat

/-- Rust `common_exception::ErrorCode`, reduced to its message. -/
structure ErrorCode where
  message : String
deriving DecidableEq, Repr

def ErrorCode.Internal (msg : String) : ErrorCode := ⟨msg⟩

/-- Rust `BlockMeta::new(...)`: persisted metadata describing one committed
storage block, with the fields in the order of the constructor call. -/
structure BlockMeta where
  row_count : Nat
  block_size : Nat
  file_size : Nat
  col_stats : Nat
  col_metas : Nat
  cluster_stats : Option ClusterStatistics
  location : Location
  bloom_filter_index_location : Option Location
  bloom_filter_index_size : Nat
  compression : Nat
deriving DecidableEq, Repr

/-- Rust `Mutation`: the tri-state outcome of processing one source block. -/
inductive Mutation where
  | DoNothing
  | Deleted
  | Replaced (meta : BlockMeta)
deriving DecidableEq, Repr

/-- Rust `SerializeDataMeta`: control metadata attached upstream, carrying the
original block index and any prior cluster statistics. -/
structure SerializeDataMeta where
  index : BlockIndex
  cluster_stats : Option ClusterStatistics
deriving DecidableEq, Repr

/-- Rust `MutationTransformMeta`: control metadata of the emitted outcome block. -/
structure MutationTransformMeta where
  index : BlockIndex
  op : Mutation
deriving DecidableEq, Repr

def MutationTransformMeta.create (index : BlockIndex) (op : Mutation) :
    MutationTransformMeta := ⟨index, op⟩

/-- The source stores block metadata as an open boxed `BlockMetaInfo` and
downcasts it; following the spec design note we close it into the
variants relevant to this pipeline plus a foreign tag. -/
inductive BlockMetaInfo where
  | serializeData (m : SerializeDataMeta)
  | mutationTransform (m : MutationTransformMeta)
  | foreign (tag : Nat)
deriving DecidableEq, Repr

/-- Rust `SerializeDataMeta::from_meta`: downcast of the boxed metadata, which
fails on a foreign metadata type. -/
def SerializeDataMeta.from_meta (m : BlockMetaInfo) :
    Except ErrorCode SerializeDataMeta :=
  match m with
  | .serializeData sm => .ok sm
  | _ => .error (ErrorCode.Internal "downcast to SerializeDataMeta failed")

/-- Rust `common_datablocks::DataBlock`: a batch of rows as parallel typed
columns, plus an optional control-metadata tag.  The columnar payload is
opaque to this stage, so it is abstracted to a tag list. -/
structure DataBlock where
  num_rows : Nat
  memory_size : Nat
  schema : Nat
  columns : List Nat
  meta : Option BlockMetaInfo
deriving DecidableEq, Repr

/-- Rust `DataBlock::take_meta`: removes and returns the metadata tag. -/
def DataBlock.take_meta (b : DataBlock) : Option BlockMetaInfo × DataBlock :=
  (b.meta, { b with meta := none })

/-- Rust `DataBlock::is_empty`: zero rows. -/
def DataBlock.is_empty (b : DataBlock) : Bool := b.num_rows == 0

/-- Rust `DataBlock::empty_with_meta`: a zero-column block carrying only
control metadata. -/
def DataBlock.empty_with_meta (m : BlockMetaInfo) : DataBlock :=
  { num_rows := 0, memory_size := 0, schema := 0, columns := [], meta := some m }

/-- Rust `SerializeState`: bytes ready for the durable write, with their
target locations (the `.0` path components of the `Location` pairs). -/
structure SerializeState where
  block_data : Bytes
  block_location : String
  index_data : Bytes
  index_location : String
deriving DecidableEq, Repr

/-- Rust `BloomIndexState`: the built secondary index (bytes, size, location). -/
structure BloomIndexState where
  data : Bytes
  size : Nat
  location : Location
deriving DecidableEq, Repr

/-- Modelled from the spec: the object-store write primitive
`write(bytes, location) -> ok/err` (`opendal::Operator` plus
`crate::io::write_data`, external to the verified file).  `failOn`
is the environment choice of which locations fail; `store` logs the
successfully written objects in order. -/
structure Operator where
  failOn : String → Bool
  store : List (String × Bytes)

/-- Modelled from the spec: `write_data(data, dal, location)`; either the
full byte range lands (appended to the log) or an error is returned. -/
def write_data (data : Bytes) (dal : Operator) (location : String) :
    Except ErrorCode Operator :=
  if dal.failOn location then
    .error (ErrorCode.Internal "storage write failed")
  else
    .ok { dal with store := dal.store ++ [(location, data)] }

/-- Modelled from the spec: `TableMetaLocationGenerator` — deterministic
target locations for a new block and its bloom index. -/
structure TableMetaLocationGenerator where
  block_location : Location
  block_id : Nat
  bloom_location : Nat → Location

def TableMetaLocationGenerator.gen_block_location
    (g : TableMetaLocationGenerator) : Location × Nat :=
  (g.block_location, g.block_id)

def TableMetaLocationGenerator.block_bloom_index_location
    (g : TableMetaLocationGenerator) (id : Nat) : Location :=
  g.bloom_location id

/-- Modelled from the spec: `ClusterStatsGenerator.gen_with_origin_stats`,
consumed as `merge_cluster_stats(block, prior?) -> cluster_stats`. -/
abbrev ClusterStatsGenerator :=
  DataBlock → Option ClusterStatistics → Except ErrorCode (Option ClusterStatistics)

/-- Modelled from the spec: the crate-external pure collaborators called
by `process()` — bloom-index construction, column statistics, the
parquet serializer and the column-meta extraction. -/
structure Collab where
  bloom_index_try_create :
    DataBlock → Location → Except ErrorCode (BloomIndexState × Nat)
  gen_columns_statistics :
    DataBlock → Option Nat → Except ErrorCode Nat
  blocks_to_parquet :
    Nat → DataBlock → TableCompression → Except ErrorCode (Bytes × Nat × Nat)
  column_metas : Nat → Except ErrorCode Nat

/-- Rust `Event`: the five-valued scheduling signal. -/
inductive Event where
  | Finished
  | NeedData
  | NeedConsume
  | Sync
  | Async
deriving DecidableEq, Repr

instance : DecidableEq (Except ErrorCode DataBlock) := fun a b =>
  match a, b with
  | .ok x, .ok y =>
    if h : x = y then isTrue (congrArg Except.ok h)
    else isFalse (fun hc => h (Except.ok.inj hc))
  | .error x, .error y =>
    if h : x = y then isTrue (congrArg Except.error h)
    else isFalse (fun hc => h (Except.error.inj hc))
  | .ok _, .error _ => isFalse (fun hc => Except.noConfusion hc)
  | .error _, .ok _ => isFalse (fun hc => Except.noConfusion hc)

/-- Modelled from the spec: an input port — a single-slot handoff point.
`has_data` is `buffer.isSome`; the buffered unit may itself be an
upstream error (Rust `Option<Result<DataBlock>>`). -/
structure InputPort where
  buffer : Option (Except ErrorCode DataBlock)
  finished : Bool
  need_data : Bool
deriving DecidableEq, Repr

def InputPort.has_data (p : InputPort) : Bool := p.buffer.isSome

def InputPort.is_finished (p : InputPort) : Bool := p.finished

def InputPort.set_need_data (p : InputPort) : InputPort :=
  { p with need_data := true }

/-- Modelled from the spec: an output port.  `finished` mirrors the
downstream closing early; `finished_up` records our own `finish()` call;
`need_data` is downstream readiness, so `can_push` holds when the slot is
free and downstream is ready. -/
structure OutputPort where
  buffer : Option DataBlock
  need_data : Bool
  finished : Bool
  finished_up : Bool
deriving DecidableEq, Repr

def OutputPort.is_finished (p : OutputPort) : Bool := p.finished

def OutputPort.can_push (p : OutputPort) : Bool :=
  p.need_data && p.buffer.isNone

def OutputPort.push_data (p : OutputPort) (d : DataBlock) : OutputPort :=
  { p with buffer := some d, need_data := false }

def OutputPort.finish (p : OutputPort) : OutputPort :=
  { p with finished_up := true }

/-- Rust `State`: the four internal states of the write-back stage. -/
inductive State where
  | Consume
  | NeedSerialize (block : DataBlock)
  | Serialized (payload : SerializeState) (meta : BlockMeta)
  | Output (op : Mutation)
deriving DecidableEq, Repr

/-- Rust `SerializeDataTransform`: the mutation write-back stage. -/
structure SerializeDataTransform where
  state : State
  input : InputPort
  output : OutputPort
  output_data : Option DataBlock
  location_gen : TableMetaLocationGenerator
  dal : Operator
  cluster_stats_gen : ClusterStatsGenerator
  index : BlockIndex
  origin_stats : Option ClusterStatistics
  table_compression : TableCompression

namespace SerializeDataTransform

/-- The final branch of `event()` (source lines 107–122): pull one unit
and classify it by its control metadata and row count. -/
def pull_one_unit (t : SerializeDataTransform) :
    SerializeDataTransform × Except ErrorCode Event :=
  match t.input.buffer with
  | none =>
    -- unreachable under the `has_data` guard; kept total
    (t, .error (ErrorCode.Internal "pull_data on empty port"))
  | some r =>
    let input' : InputPort := { t.input with buffer := none }
    match r with
    | .error e => ({ t with input := input' }, .error e)
    | .ok input_data =>
      let (meta, input_data) := input_data.take_meta
      match meta with
      | none =>
        ({ t with input := input', state := State.Output Mutation.DoNothing },
         .ok .Sync)
      | some m =>
        match SerializeDataMeta.from_meta m with
        | .error e => ({ t with input := input' }, .error e)
        | .ok sm =>
          if input_data.is_empty then
            ({ t with input := input', index := sm.index,
                      origin_stats := sm.cluster_stats,
                      state := State.Output Mutation.Deleted }, .ok .Sync)
          else
            ({ t with input := input', index := sm.index,
                      origin_stats := sm.cluster_stats,
                      state := State.NeedSerialize input_data }, .ok .Sync)

/-- Rust `SerializeDataTransform::event` (source lines 75–123). -/
def event (t : SerializeDataTransform) :
    SerializeDataTransform × Except ErrorCode Event :=
  match t.state with
  | .NeedSerialize _ => (t, .ok .Sync)
  | .Output _ => (t, .ok .Sync)
  | .Serialized _ _ => (t, .ok .Async)
  | .Consume =>
    if t.output.is_finished then (t, .ok .Finished)
    else if !t.output.can_push then (t, .ok .NeedConsume)
    else
      match t.output_data with
      | some data_block =>
        ({ t with output_data := none,
                  output := t.output.push_data data_block }, .ok .NeedConsume)
      | none =>
        if t.input.is_finished then
          ({ t with output := t.output.finish }, .ok .Finished)
        else if !t.input.has_data then
          ({ t with input := t.input.set_need_data }, .ok .NeedData)
        else
          t.pull_one_unit

/-- Rust `SerializeDataTransform::process` (source lines 125–184).  The Rust
`std::mem::replace(&mut self.state, State::Consume)` is the `t0` binding:
the state is taken out and replaced by `Consume` before inspection, so
every error return leaves the stage in `Consume`. -/
def process (c : Collab) (t : SerializeDataTransform) :
    SerializeDataTransform × Except ErrorCode Unit :=
  let t0 := { t with state := State.Consume }
  match t.state with
  | State.NeedSerialize block =>
    -- std::mem::take(&mut self.origin_stats)
    let origin := t.origin_stats
    let t0 := { t0 with origin_stats := none }
    match t.cluster_stats_gen block origin with
    | .error e => (t0, .error e)
    | .ok cluster_stats =>
      let row_count := block.num_rows
      let block_size := block.memory_size
      let (block_location, block_id) := t.location_gen.gen_block_location
      let location := t.location_gen.block_bloom_index_location block_id
      match c.bloom_index_try_create block location with
      | .error e => (t0, .error e)
      | .ok (bloom_index_state, column_distinct_count) =>
        match c.gen_columns_statistics block (some column_distinct_count) with
        | .error e => (t0, .error e)
        | .ok col_stats =>
          match c.blocks_to_parquet block.schema block t.table_compression with
          | .error e => (t0, .error e)
          | .ok (block_data, file_size, meta_data) =>
            match c.column_metas meta_data with
            | .error e => (t0, .error e)
            | .ok col_metas =>
              let new_meta : BlockMeta :=
                { row_count := row_count,
                  block_size := block_size,
                  file_size := file_size,
                  col_stats := col_stats,
                  col_metas := col_metas,
                  cluster_stats := cluster_stats,
                  location := block_location,
                  bloom_filter_index_location := some bloom_index_state.location,
                  bloom_filter_index_size := bloom_index_state.size,
                  compression := t.table_compression }
              let payload : SerializeState :=
                { block_data := block_data,
                  block_location := block_location.1,
                  index_data := bloom_index_state.data,
                  index_location := bloom_index_state.location.1 }
              ({ t0 with state := State.Serialized payload new_meta }, .ok ())
  | State.Output op =>
    let meta := MutationTransformMeta.create t.index op
    let out := DataBlock.empty_with_meta (BlockMetaInfo.mutationTransform meta)
    ({ t0 with output_data := some out }, .ok ())
  | _ => (t0, .error (ErrorCode.Internal "It is a bug."))

/-- Rust `SerializeDataTransform::async_process` (source lines 186–208): write
the block bytes, then the index bytes; on success move to
`Output(Replaced(meta))`. -/
def async_process (t : SerializeDataTransform) :
    SerializeDataTransform × Except ErrorCode Unit :=
  let t0 := { t with state := State.Consume }
  match t.state with
  | State.Serialized serialize_state block_meta =>
    match write_data serialize_state.block_data t.dal
        serialize_state.block_location with
    | .error e => (t0, .error e)
    | .ok dal1 =>
      match write_data serialize_state.index_data dal1
          serialize_state.index_location with
      | .error e => ({ t0 with dal := dal1 }, .error e)
      | .ok dal2 =>
        ({ t0 with dal := dal2,
                   state := State.Output (Mutation.Replaced block_meta) },
         .ok ())
  | _ => (t0, .error (ErrorCode.Internal "It is a bug."))

end SerializeDataTransform

/-- Whether a state demands the synchronous phase (spec §4.3 step 1). -/
def state_demands_sync : State → Bool
  | .NeedSerialize _ => true
  | .Output _ => true
  | _ => false

/-- Whether a state demands the asynchronous phase (spec §4.3 step 2). -/
def state_demands_async : State → Bool
  | .Serialized _ _ => true
  | _ => false

/-- Written from the spec words: the fixed priority list of §4.3
(steps 1–8) deciding the event, step by step in the stated order; the
final step delegates to pulling one unit as the claim states. -/
def event_spec_priority (t : SerializeDataTransform) :
    SerializeDataTransform × Except ErrorCode Event :=
  if state_demands_sync t.state then (t, .ok .Sync)
  else if state_demands_async t.state then (t, .ok .Async)
  else if t.output.is_finished then (t, .ok .Finished)
  else if !t.output.can_push then (t, .ok .NeedConsume)
  else
    match t.output_data with
    | some d =>
      ({ t with output_data := none, output := t.output.push_data d },
       .ok .NeedConsume)
    | none =>
      if t.input.is_finished then
        ({ t with output := t.output.finish }, .ok .Finished)
      else if !t.input.has_data then
        ({ t with input := t.input.set_need_data }, .ok .NeedData)
      else
        t.pull_one_unit

/-- The configuration in which `event()` reaches its pull branch:
state `Consume`, downstream alive and ready, nothing buffered, upstream
alive with a unit available. -/
def PullConfig (t : SerializeDataTransform) (b : DataBlock) : Prop :=
  t.state = State.Consume ∧
  t.output.is_finished = false ∧
  t.output.can_push = true ∧
  t.output_data = none ∧
  t.input.is_finished = false ∧
  t.input.buffer = some (.ok b)

/-- The classification of one pulled unit (claim C1): no metadata gives
`Output DoNothing`; metadata with zero rows gives `Output Deleted`
recording index and prior cluster statistics; metadata with rows gives
`NeedSerialize`; all three return `Sync`; and from an `Output` state the
sync phase goes straight to `Consume` with an outcome, independent of the
serialization collaborators (the serialize phase is never entered). -/
def PullClassified (t : SerializeDataTransform) (b : DataBlock) : Prop :=
  (b.meta = none →
    (t.event).2 = .ok Event.Sync ∧
    (t.event).1.state = State.Output Mutation.DoNothing) ∧
  (∀ sm, b.meta = some (BlockMetaInfo.serializeData sm) → b.num_rows = 0 →
    (t.event).2 = .ok Event.Sync ∧
    (t.event).1.state = State.Output Mutation.Deleted ∧
    (t.event).1.index = sm.index ∧
    (t.event).1.origin_stats = sm.cluster_stats) ∧
  (∀ sm, b.meta = some (BlockMetaInfo.serializeData sm) → b.num_rows ≠ 0 →
    (t.event).2 = .ok Event.Sync ∧
    (t.event).1.state = State.NeedSerialize { b with meta := none } ∧
    (t.event).1.index = sm.index ∧
    (t.event).1.origin_stats = sm.cluster_stats) ∧
  (∀ op, (t.event).1.state = State.Output op → ∀ c,
    (SerializeDataTransform.process c (t.event).1).1.state = State.Consume ∧
    (SerializeDataTransform.process c (t.event).1).2 = .ok () ∧
    (∃ d, (SerializeDataTransform.process c (t.event).1).1.output_data = some d) ∧
    ∀ c₂, SerializeDataTransform.process c (t.event).1 =
          SerializeDataTransform.process c₂ (t.event).1)

lemma event_pull_config (t : SerializeDataTransform) (b : DataBlock)
    (h : PullConfig t b) : t.event = t.pull_one_unit := by
  obtain ⟨h1, h2, h3, h4, h5, h6⟩ := h
  simp [SerializeDataTransform.event, h1, h2, h3, h4, h5,
    InputPort.has_data, h6]

/-- C1: every pulled unit is classified by metadata presence and row
count into `Output(DoNothing)`, `Output(Deleted)` or `NeedSerialize`,
recording the metadata index and prior cluster statistics, always
returning `Sync`; the `Deleted`/`DoNothing` cases never enter the
serialize phase. -/
theorem c1_pull_classification (t : SerializeDataTransform) (b : DataBlock)
    (h : PullConfig t b) : PullClassified t b := by
  have he := event_pull_config t b h
  obtain ⟨h1, h2, h3, h4, h5, h6⟩ := h
  refine ⟨?_, ?_, ?_, ?_⟩
  · intro hm
    rw [he]
    simp [SerializeDataTransform.pull_one_unit, h6, DataBlock.take_meta, hm]
  · intro sm hm hr
    rw [he]
    simp [SerializeDataTransform.pull_one_unit, h6, DataBlock.take_meta, hm,
      SerializeDataMeta.from_meta, DataBlock.is_empty, hr]
  · intro sm hm hr
    rw [he]
    simp [SerializeDataTransform.pull_one_unit, h6, DataBlock.take_meta, hm,
      SerializeDataMeta.from_meta, DataBlock.is_empty, hr]
  · intro op hop c
    refine ⟨?_, ?_, ?_, ?_⟩ <;>
      simp [SerializeDataTransform.process, hop]

/-- Concrete stage and blocks used to instantiate the hypotheses of the
claims' theorems. -/
def wCollab : Collab :=
  { bloom_index_try_create := fun _ l => .ok ({ data := [7], size := 1, location := l }, 4),
    gen_columns_statistics := fun _ _ => .ok 5,
    blocks_to_parquet := fun _ _ _ => .ok ([1, 2, 3], 3, 9),
    column_metas := fun _ => .ok 6 }

def wStage : SerializeDataTransform :=
  { state := State.Consume,
    input := { buffer := none, finished := false, need_data := false },
    output := { buffer := none, need_data := true, finished := false,
                finished_up := false },
    output_data := none,
    location_gen := { block_location := ("blk", 0), block_id := 42,
                      bloom_location := fun i => ("bloom", i) },
    dal := { failOn := fun _ => false, store := [] },
    cluster_stats_gen := fun _ os => .ok os,
    index := (0, 0),
    origin_stats := none,
    table_compression := 0 }

def wBlock : DataBlock :=
  { num_rows := 3, memory_size := 30, schema := 1, columns := [1, 2, 3],
    meta := some (.serializeData { index := (1, 7), cluster_stats := none }) }

def wStagePull : SerializeDataTransform :=
  { wStage with input := { wStage.input with buffer := some (.ok wBlock) } }

theorem c1_pull_classification_witness :
    PullConfig wStagePull wBlock ∧ PullClassified wStagePull wBlock :=
  ⟨⟨rfl, rfl, rfl, rfl, rfl, rfl⟩,
   c1_pull_classification wStagePull wBlock ⟨rfl, rfl, rfl, rfl, rfl, rfl⟩⟩

/-- C3: `event()` decides exactly by the spec fixed priority order —
the source `event` coincides with the step-by-step priority list
written from the spec. -/
theorem c3_event_priority (t : SerializeDataTransform) :
    t.event = event_spec_priority t := by
  cases h : t.state <;>
    simp [SerializeDataTransform.event, event_spec_priority,
      state_demands_sync, state_demands_async, h]

lemma process_error_shape (c : Collab) (t : SerializeDataTransform)
    (e : ErrorCode) (h : (SerializeDataTransform.process c t).2 = .error e) :
    (SerializeDataTransform.process c t).1.state = State.Consume ∧
    (SerializeDataTransform.process c t).1.output_data = t.output_data ∧
    (SerializeDataTransform.process c t).1.output = t.output := by
  revert h
  cases hst : t.state <;>
    simp only [SerializeDataTransform.process, hst,
      TableMetaLocationGenerator.gen_block_location] <;>
    (repeat' split) <;> simp

lemma async_error_shape (t : SerializeDataTransform) (e : ErrorCode)
    (h : (t.async_process).2 = .error e) :
    (t.async_process).1.state = State.Consume ∧
    (t.async_process).1.output_data = t.output_data ∧
    (t.async_process).1.output = t.output := by
  revert h
  cases hst : t.state <;>
    simp only [SerializeDataTransform.async_process, hst] <;>
    (repeat' split) <;> simp

/-- C10: both phases take the state out, replacing it with `Consume`,
before inspecting it, so every error return (contract violation,
serialization failure, storage-write failure) leaves the stage in
`Consume`; the previous state and its payload are discarded. -/
theorem c10_error_state_reset (c : Collab) (t : SerializeDataTransform)
    (e : ErrorCode) :
    ((SerializeDataTransform.process c t).2 = .error e →
      (SerializeDataTransform.process c t).1.state = State.Consume) ∧
    ((t.async_process).2 = .error e →
      (t.async_process).1.state = State.Consume) :=
  ⟨fun h => (process_error_shape c t e h).1,
   fun h => (async_error_shape t e h).1⟩

theorem c10_error_state_reset_witness :
    (SerializeDataTransform.process wCollab wStage).2 =
      .error (ErrorCode.Internal "It is a bug.") ∧
    (SerializeDataTransform.process wCollab wStage).1.state = State.Consume ∧
    (wStage.async_process).2 = .error (ErrorCode.Internal "It is a bug.") ∧
    (wStage.async_process).1.state = State.Consume :=
  ⟨rfl,
   (c10_error_state_reset wCollab wStage (ErrorCode.Internal "It is a bug.")).1 rfl,
   rfl,
   (c10_error_state_reset wCollab wStage (ErrorCode.Internal "It is a bug.")).2 rfl⟩

/-- The behavior claimed of `async_process` from `Serialized(ss, bm)`
(claim C4): both writes succeed in order (block bytes first, then index
bytes) and the state moves to `Output(Replaced(bm))`; if the block write
fails nothing is written, and if the index write fails only the block
bytes land; on every failure the error propagates, the stage does not
transition to `Output`, and no outcome is produced. -/
def AsyncWriteBehavior (t : SerializeDataTransform) (ss : SerializeState)
    (bm : BlockMeta) : Prop :=
  (t.dal.failOn ss.block_location = false →
    t.dal.failOn ss.index_location = false →
    (t.async_process).2 = .ok () ∧
    (t.async_process).1.state = State.Output (Mutation.Replaced bm) ∧
    (t.async_process).1.dal.store =
      t.dal.store ++
        [(ss.block_location, ss.block_data), (ss.index_location, ss.index_data)] ∧
    (t.async_process).1.output_data = t.output_data ∧
    (t.async_process).1.output = t.output) ∧
  (t.dal.failOn ss.block_location = true →
    (∃ e, (t.async_process).2 = .error e) ∧
    (t.async_process).1.state = State.Consume ∧
    (t.async_process).1.dal.store = t.dal.store ∧
    (t.async_process).1.output_data = t.output_data) ∧
  (t.dal.failOn ss.block_location = false →
    t.dal.failOn ss.index_location = true →
    (∃ e, (t.async_process).2 = .error e) ∧
    (t.async_process).1.state = State.Consume ∧
    (t.async_process).1.dal.store =
      t.dal.store ++ [(ss.block_location, ss.block_data)] ∧
    (t.async_process).1.output_data = t.output_data)

/-- C4: `async_process` from `Serialized` writes block bytes, then index
bytes; on success it transitions to `Output(Replaced(descriptor))`; if
either write fails the error propagates, no further transition happens,
and no outcome is produced for that unit. -/
theorem c4_async_process_writes (t : SerializeDataTransform)
    (ss : SerializeState) (bm : BlockMeta)
    (hst : t.state = State.Serialized ss bm) :
    AsyncWriteBehavior t ss bm := by
  refine ⟨?_, ?_, ?_⟩
  · intro h1 h2
    simp [SerializeDataTransform.async_process, hst, write_data, h1, h2]
  · intro h1
    simp [SerializeDataTransform.async_process, hst, write_data, h1]
  · intro h1 h2
    simp [SerializeDataTransform.async_process, hst, write_data, h1, h2]

def wSerState : SerializeState :=
  { block_data := [1, 2, 3], block_location := "blk",
    index_data := [7], index_location := "bloom" }

def wBlockMeta : BlockMeta :=
  { row_count := 3, block_size := 30, file_size := 3, col_stats := 5,
    col_metas := 6, cluster_stats := none, location := ("blk", 0),
    bloom_filter_index_location := some ("bloom", 42),
    bloom_filter_index_size := 1, compression := 0 }

def wStageSerialized : SerializeDataTransform :=
  { wStage with state := State.Serialized wSerState wBlockMeta }

theorem c4_async_process_writes_witness :
    wStageSerialized.state = State.Serialized wSerState wBlockMeta ∧
    AsyncWriteBehavior wStageSerialized wSerState wBlockMeta :=
  ⟨rfl, c4_async_process_writes wStageSerialized wSerState wBlockMeta rfl⟩

lemma process_preserves (c : Collab) (t : SerializeDataTransform) :
    (SerializeDataTransform.process c t).1.index = t.index ∧
    (SerializeDataTransform.process c t).1.output = t.output ∧
    (SerializeDataTransform.process c t).1.input = t.input ∧
    (SerializeDataTransform.process c t).1.dal = t.dal := by
  cases hst : t.state <;>
    simp only [SerializeDataTransform.process, hst,
      TableMetaLocationGenerator.gen_block_location] <;>
    (repeat' split) <;> simp

lemma async_preserves (t : SerializeDataTransform) :
    (t.async_process).1.index = t.index ∧
    (t.async_process).1.output = t.output ∧
    (t.async_process).1.output_data = t.output_data ∧
    (t.async_process).1.input = t.input := by
  cases hst : t.state <;>
    simp only [SerializeDataTransform.async_process, hst] <;>
    (repeat' split) <;> simp

/-- Success shape of the sync phase from `NeedSerialize`: the descriptor
exists only when every collaborator call on this very block succeeded,
and it is assembled from exactly their outputs. -/
lemma process_ok_shape (c : Collab) (t : SerializeDataTransform)
    (blk : DataBlock) (hst : t.state = State.NeedSerialize blk)
    (hok : (SerializeDataTransform.process c t).2 = .ok ()) :
    ∃ cs bis cdc colst bytes fs md cm,
      t.cluster_stats_gen blk t.origin_stats = .ok cs ∧
      c.bloom_index_try_create blk
        (t.location_gen.block_bloom_index_location t.location_gen.block_id) =
        .ok (bis, cdc) ∧
      c.gen_columns_statistics blk (some cdc) = .ok colst ∧
      c.blocks_to_parquet blk.schema blk t.table_compression =
        .ok (bytes, fs, md) ∧
      c.column_metas md = .ok cm ∧
      (SerializeDataTransform.process c t).1.state = State.Serialized
        { block_data := bytes,
          block_location := t.location_gen.block_location.1,
          index_data := bis.data,
          index_location := bis.location.1 }
        { row_count := blk.num_rows, block_size := blk.memory_size,
          file_size := fs, col_stats := colst, col_metas := cm,
          cluster_stats := cs, location := t.location_gen.block_location,
          bloom_filter_index_location := some bis.location,
          bloom_filter_index_size := bis.size,
          compression := t.table_compression } := by
  simp only [SerializeDataTransform.process, hst,
    TableMetaLocationGenerator.gen_block_location] at hok ⊢
  cases h1 : t.cluster_stats_gen blk t.origin_stats with
  | error e => simp [h1] at hok
  | ok cs =>
    simp only [h1] at hok ⊢
    cases h2 : c.bloom_index_try_create blk
        (t.location_gen.block_bloom_index_location t.location_gen.block_id) with
    | error e => simp [h2] at hok
    | ok p =>
      obtain ⟨bis, cdc⟩ := p
      simp only [h2] at hok ⊢
      cases h3 : c.gen_columns_statistics blk (some cdc) with
      | error e => simp [h3] at hok
      | ok colst =>
        simp only [h3] at hok ⊢
        cases h4 : c.blocks_to_parquet blk.schema blk t.table_compression with
        | error e => simp [h4] at hok
        | ok q =>
          obtain ⟨bytes, fs, md⟩ := q
          simp only [h4] at hok ⊢
          cases h5 : c.column_metas md with
          | error e => simp [h5] at hok
          | ok cm =>
            exact ⟨cs, bis, cdc, colst, bytes, fs, md, cm, rfl, rfl, h3,
              rfl, h5, by simp [h5]⟩

/-- Success shape of the async phase from `Serialized`. -/
lemma async_serialized_ok (t : SerializeDataTransform) (ss : SerializeState)
    (bm : BlockMeta) (hst : t.state = State.Serialized ss bm)
    (hok : (t.async_process).2 = .ok ()) :
    (t.async_process).1.state = State.Output (Mutation.Replaced bm) := by
  revert hok
  simp only [SerializeDataTransform.async_process, hst]
  (repeat' split) <;> simp

/-- The sync phase from `Output op` wraps the stored index with the
outcome into a metadata-only block and returns to `Consume`. -/
lemma process_output_shape (c : Collab) (t : SerializeDataTransform)
    (op : Mutation) (hst : t.state = State.Output op) :
    SerializeDataTransform.process c t =
      ({ t with state := State.Consume,
                output_data := some (DataBlock.empty_with_meta
                  (BlockMetaInfo.mutationTransform
                    (MutationTransformMeta.create t.index op))) }, .ok ()) := by
  simp [SerializeDataTransform.process, hst]

/-- The classification performed by the pull branch, as explicit record
results (shared shape lemma for the pull configuration). -/
lemma pull_serialize_shape (t : SerializeDataTransform) (b : DataBlock)
    (sm : SerializeDataMeta) (h : PullConfig t b)
    (hm : b.meta = some (BlockMetaInfo.serializeData sm))
    (hr : b.num_rows ≠ 0) :
    (t.event).1.state = State.NeedSerialize { b with meta := none } ∧
    (t.event).1.index = sm.index ∧
    (t.event).1.origin_stats = sm.cluster_stats ∧
    (t.event).2 = .ok Event.Sync := by
  rw [event_pull_config t b h]
  obtain ⟨h1, h2, h3, h4, h5, h6⟩ := h
  simp [SerializeDataTransform.pull_one_unit, h6, DataBlock.take_meta, hm,
    SerializeDataMeta.from_meta, DataBlock.is_empty, hr]

/-- The property of claim C5: from `NeedSerialize(block)` the descriptor is
constructed only after cluster statistics, bloom index, column statistics
and serialization all succeeded for that block; any error propagates and
no partial descriptor is observable (state back to `Consume`, output
buffer and port untouched). -/
def DescriptorOnlyAfterSuccess (c : Collab) (t : SerializeDataTransform)
    (blk : DataBlock) : Prop :=
  (∀ e, (SerializeDataTransform.process c t).2 = .error e →
    (SerializeDataTransform.process c t).1.state = State.Consume ∧
    (SerializeDataTransform.process c t).1.output_data = t.output_data ∧
    (SerializeDataTransform.process c t).1.output = t.output) ∧
  ((SerializeDataTransform.process c t).2 = .ok () →
    ∃ cs bis cdc colst bytes fs md cm,
      t.cluster_stats_gen blk t.origin_stats = .ok cs ∧
      c.bloom_index_try_create blk
        (t.location_gen.block_bloom_index_location t.location_gen.block_id) =
        .ok (bis, cdc) ∧
      c.gen_columns_statistics blk (some cdc) = .ok colst ∧
      c.blocks_to_parquet blk.schema blk t.table_compression =
        .ok (bytes, fs, md) ∧
      c.column_metas md = .ok cm ∧
      (SerializeDataTransform.process c t).1.state = State.Serialized
        { block_data := bytes,
          block_location := t.location_gen.block_location.1,
          index_data := bis.data,
          index_location := bis.location.1 }
        { row_count := blk.num_rows, block_size := blk.memory_size,
          file_size := fs, col_stats := colst, col_metas := cm,
          cluster_stats := cs, location := t.location_gen.block_location,
          bloom_filter_index_location := some bis.location,
          bloom_filter_index_size := bis.size,
          compression := t.table_compression })

/-- C5: in `process()` from `NeedSerialize(block)`, the `BlockMeta`
descriptor is built only after all serialization and index/statistics
steps succeeded for that same block; on any error `process()` propagates
it and no partial descriptor is constructed or observable. -/
theorem c5_descriptor_only_after_success (c : Collab)
    (t : SerializeDataTransform) (blk : DataBlock)
    (hst : t.state = State.NeedSerialize blk) :
    DescriptorOnlyAfterSuccess c t blk :=
  ⟨fun e he => process_error_shape c t e he,
   fun hok => process_ok_shape c t blk hst hok⟩

def wBlockStripped : DataBlock := { wBlock with meta := none }

def wStageNS : SerializeDataTransform :=
  { wStage with state := State.NeedSerialize wBlockStripped }

theorem c5_descriptor_only_after_success_witness :
    wStageNS.state = State.NeedSerialize wBlockStripped ∧
    DescriptorOnlyAfterSuccess wCollab wStageNS wBlockStripped :=
  ⟨rfl, c5_descriptor_only_after_success wCollab wStageNS wBlockStripped rfl⟩

/-- Shape of the pull branch for a metadata-bearing unit with zero rows
(shared shape lemma for the pull configuration). -/
lemma pull_deleted_shape (t : SerializeDataTransform) (b : DataBlock)
    (sm : SerializeDataMeta) (h : PullConfig t b)
    (hm : b.meta = some (BlockMetaInfo.serializeData sm))
    (hr : b.num_rows = 0) :
    (t.event).1.state = State.Output Mutation.Deleted ∧
    (t.event).1.index = sm.index ∧
    (t.event).1.origin_stats = sm.cluster_stats ∧
    (t.event).2 = .ok Event.Sync := by
  rw [event_pull_config t b h]
  obtain ⟨h1, h2, h3, h4, h5, h6⟩ := h
  simp [SerializeDataTransform.pull_one_unit, h6, DataBlock.take_meta, hm,
    SerializeDataMeta.from_meta, DataBlock.is_empty, hr]

/-- The property of claim C2: the block index taken from a
metadata-bearing unit at pull time is stored and copied unchanged into
the outcome emitted for that unit, never recomputed.  With zero rows the
`Deleted` outcome carries exactly that index; with at least one row the
index is threaded unchanged through `NeedSerialize` and `Serialized` and
the eventual outcome is exactly one `Replaced` carrying it. -/
def IndexThreadedToOutcome (c : Collab) (t : SerializeDataTransform)
    (sm : SerializeDataMeta) : Prop :=
  (t.event).1.index = sm.index ∧
  (SerializeDataTransform.process c (t.event).1).1.index = sm.index ∧
  ((SerializeDataTransform.process c (t.event).1).1.async_process).1.index =
    sm.index ∧
  ∃ bm,
    ((SerializeDataTransform.process c (t.event).1).1.async_process).1.state =
      State.Output (Mutation.Replaced bm) ∧
    ∀ c₂, (SerializeDataTransform.process c₂
        ((SerializeDataTransform.process c (t.event).1).1.async_process).1).1.output_data =
      some (DataBlock.empty_with_meta (BlockMetaInfo.mutationTransform
        (MutationTransformMeta.create sm.index (Mutation.Replaced bm))))

/-- Both outcome paths of a metadata-bearing unit preserve its block
index: the zero-row path emits `Deleted` with that index, and the
serialize path (when both phases succeed) emits `Replaced` with that
index. -/
def MetaIndexToOutcome (c : Collab) (t : SerializeDataTransform)
    (b : DataBlock) (sm : SerializeDataMeta) : Prop :=
  (b.num_rows = 0 →
    (t.event).1.index = sm.index ∧
    (t.event).1.state = State.Output Mutation.Deleted ∧
    ∀ c₂, (SerializeDataTransform.process c₂ (t.event).1).1.output_data =
      some (DataBlock.empty_with_meta (BlockMetaInfo.mutationTransform
        (MutationTransformMeta.create sm.index Mutation.Deleted)))) ∧
  (b.num_rows ≠ 0 →
    (SerializeDataTransform.process c (t.event).1).2 = .ok () →
    ((SerializeDataTransform.process c (t.event).1).1.async_process).2 =
      .ok () →
    IndexThreadedToOutcome c t sm)

/-- C2: for every pulled unit carrying control metadata, the block index
from that metadata is stored on pull and copied unchanged into the
outcome emitted for that unit — `Deleted` with that index for a zero-row
unit, and (when serialization and the writes succeed) exactly one
`Replaced` with that same index for a unit with rows; the index is never
recomputed along the way. -/
theorem c2_block_index_preserved (c : Collab) (t : SerializeDataTransform)
    (b : DataBlock) (sm : SerializeDataMeta) (h : PullConfig t b)
    (hm : b.meta = some (BlockMetaInfo.serializeData sm)) :
    MetaIndexToOutcome c t b sm := by
  constructor
  · intro hr
    obtain ⟨hs1, hi1, _, _⟩ := pull_deleted_shape t b sm h hm hr
    refine ⟨hi1, hs1, fun c₂ => ?_⟩
    rw [process_output_shape c₂ _ _ hs1]
    simp [hi1]
  · intro hr hp ha
    obtain ⟨hs1, hi1, _, _⟩ := pull_serialize_shape t b sm h hm hr
    have hp1 := (process_preserves c (t.event).1).1
    have ha1 :=
      (async_preserves (SerializeDataTransform.process c (t.event).1).1).1
    obtain ⟨cs, bis, cdc, colst, bytes, fs, md, cm, _, _, _, _, _, hser⟩ :=
      process_ok_shape c (t.event).1 { b with meta := none } hs1 hp
    have hout := async_serialized_ok
      (SerializeDataTransform.process c (t.event).1).1 _ _ hser ha
    refine ⟨hi1, hp1.trans hi1, ha1.trans (hp1.trans hi1), ?_⟩
    refine ⟨_, hout, fun c₂ => ?_⟩
    rw [process_output_shape c₂ _ _ hout]
    simp [ha1.trans (hp1.trans hi1)]

def wBlockZero : DataBlock :=
  { num_rows := 0, memory_size := 0, schema := 1, columns := [],
    meta := some (.serializeData { index := (2, 5), cluster_stats := none }) }

def wStagePullZero : SerializeDataTransform :=
  { wStage with input := { wStage.input with buffer := some (.ok wBlockZero) } }

theorem c2_block_index_preserved_witness :
    PullConfig wStagePullZero wBlockZero ∧
    MetaIndexToOutcome wCollab wStagePullZero wBlockZero
      { index := (2, 5), cluster_stats := none } ∧
    PullConfig wStagePull wBlock ∧
    MetaIndexToOutcome wCollab wStagePull wBlock
      { index := (1, 7), cluster_stats := none } :=
  ⟨⟨rfl, rfl, rfl, rfl, rfl, rfl⟩,
   c2_block_index_preserved wCollab wStagePullZero wBlockZero
     { index := (2, 5), cluster_stats := none }
     ⟨rfl, rfl, rfl, rfl, rfl, rfl⟩ rfl,
   ⟨rfl, rfl, rfl, rfl, rfl, rfl⟩,
   c2_block_index_preserved wCollab wStagePull wBlock
     { index := (1, 7), cluster_stats := none }
     ⟨rfl, rfl, rfl, rfl, rfl, rfl⟩ rfl⟩

/-- The property of claim C7: with the downstream port finished, the stage
never pushes again (output buffer untouched by any phase), in-flight
sync/async work still gets its `Sync`/`Async` dispatch, the buffered
result of finishing that work is discarded, and the next poll from
`Consume` returns `Finished` leaving the stage unchanged. -/
def StopsWhenDownstreamFinished (c : Collab)
    (t : SerializeDataTransform) : Prop :=
  (t.state = State.Consume → t.event = (t, .ok Event.Finished)) ∧
  ((t.event).1.output.buffer = t.output.buffer ∧
   (SerializeDataTransform.process c t).1.output.buffer = t.output.buffer ∧
   (t.async_process).1.output.buffer = t.output.buffer) ∧
  ((∀ blk, t.state = State.NeedSerialize blk → (t.event).2 = .ok Event.Sync) ∧
   (∀ ss bm, t.state = State.Serialized ss bm →
     (t.event).2 = .ok Event.Async) ∧
   (∀ op, t.state = State.Output op → (t.event).2 = .ok Event.Sync)) ∧
  (∀ op, t.state = State.Output op →
    (SerializeDataTransform.process c t).1.output_data =
      some (DataBlock.empty_with_meta (BlockMetaInfo.mutationTransform
        (MutationTransformMeta.create t.index op))) ∧
    (SerializeDataTransform.process c t).1.event =
      ((SerializeDataTransform.process c t).1, .ok Event.Finished))

/-- C7: if the downstream output port is marked finished, the stage stops
producing — next poll from `Consume` returns `Finished`, nothing is ever
pushed again, and in-flight work completes but its result is discarded. -/
theorem c7_downstream_finished_stops (c : Collab)
    (t : SerializeDataTransform) (hfin : t.output.is_finished = true) :
    StopsWhenDownstreamFinished c t := by
  refine ⟨?_, ⟨?_, ?_, ?_⟩, ⟨?_, ?_, ?_⟩, ?_⟩
  · intro h
    simp [SerializeDataTransform.event, h, hfin]
  · cases hst : t.state <;> simp [SerializeDataTransform.event, hst, hfin]
  · rw [(process_preserves c t).2.1]
  · rw [(async_preserves t).2.1]
  · intro blk hst
    simp [SerializeDataTransform.event, hst]
  · intro ss bm hst
    simp [SerializeDataTransform.event, hst]
  · intro op hst
    simp [SerializeDataTransform.event, hst]
  · intro op hst
    rw [process_output_shape c t op hst]
    refine ⟨rfl, ?_⟩
    simp [SerializeDataTransform.event, hfin]

def wStageFin : SerializeDataTransform :=
  { wStage with output := { wStage.output with finished := true } }

theorem c7_downstream_finished_stops_witness :
    wStageFin.output.is_finished = true ∧
    StopsWhenDownstreamFinished wCollab wStageFin :=
  ⟨rfl, c7_downstream_finished_stops wCollab wStageFin rfl⟩

/-- The property of claim C8: under backpressure (`can_push` false) `event()`
returns `NeedConsume` leaving the stage — in particular the buffered
pending outcome — entirely unchanged; when the port can accept again,
that same outcome is pushed and the buffered-outcome field is cleared by
exactly that push. -/
def BackpressurePreservesPending (t : SerializeDataTransform)
    (d : DataBlock) : Prop :=
  (t.output.can_push = false → t.event = (t, .ok Event.NeedConsume)) ∧
  (t.output.can_push = true →
    (t.event).1.output_data = none ∧
    (t.event).1.output.buffer = some d ∧
    (t.event).2 = .ok Event.NeedConsume)

/-- C8: when the output port cannot accept, `event()` returns
`NeedConsume` without touching the pending outcome; the same outcome is
pushed exactly once when the port next can accept, which is the only
thing that clears the buffered-outcome field. -/
theorem c8_backpressure_preserves_pending (t : SerializeDataTransform)
    (d : DataBlock) (hst : t.state = State.Consume)
    (hfin : t.output.is_finished = false)
    (hod : t.output_data = some d) :
    BackpressurePreservesPending t d := by
  constructor
  · intro hcp
    simp [SerializeDataTransform.event, hst, hfin, hcp]
  · intro hcp
    simp [SerializeDataTransform.event, hst, hfin, hcp, hod,
      OutputPort.push_data]

def wOutBlock : DataBlock :=
  DataBlock.empty_with_meta (BlockMetaInfo.mutationTransform
    (MutationTransformMeta.create (0, 0) Mutation.DoNothing))

def wStagePending : SerializeDataTransform :=
  { wStage with output_data := some wOutBlock }

theorem c8_backpressure_preserves_pending_witness :
    wStagePending.state = State.Consume ∧
    wStagePending.output.is_finished = false ∧
    wStagePending.output_data = some wOutBlock ∧
    BackpressurePreservesPending wStagePending wOutBlock :=
  ⟨rfl, rfl, rfl,
   c8_backpressure_preserves_pending wStagePending wOutBlock rfl rfl rfl⟩

/-- The property of claim C9: pulling a unit without control metadata leaves
the stored block index and origin cluster statistics untouched, so the
`DoNothing` outcome emitted for it carries the previously stored
index, not anything derived from this unit. -/
def StaleIndexOnNoMeta (t : SerializeDataTransform) : Prop :=
  (t.event).1.index = t.index ∧
  (t.event).1.origin_stats = t.origin_stats ∧
  (t.event).1.state = State.Output Mutation.DoNothing ∧
  ∀ c, (SerializeDataTransform.process c (t.event).1).1.output_data =
    some (DataBlock.empty_with_meta (BlockMetaInfo.mutationTransform
      (MutationTransformMeta.create t.index Mutation.DoNothing)))

/-- C9: a metadata-less unit does not update the stored block index or
origin statistics; its `Unchanged` outcome carries the index left over
from the most recently pulled metadata-bearing input (or the initial
index). -/
theorem c9_no_meta_keeps_stale_index (t : SerializeDataTransform)
    (b : DataBlock) (h : PullConfig t b) (hm : b.meta = none) :
    StaleIndexOnNoMeta t := by
  have he := event_pull_config t b h
  obtain ⟨h1, h2, h3, h4, h5, h6⟩ := h
  have ht' : t.event =
      ({ t with input := { t.input with buffer := none },
                state := State.Output Mutation.DoNothing }, .ok Event.Sync) := by
    rw [he]
    simp [SerializeDataTransform.pull_one_unit, h6, DataBlock.take_meta, hm]
  refine ⟨?_, ?_, ?_, ?_⟩
  · rw [ht']
  · rw [ht']
  · rw [ht']
  · intro c
    rw [ht']
    simp [SerializeDataTransform.process]

def wBlockNoMeta : DataBlock :=
  { num_rows := 2, memory_size := 20, schema := 1, columns := [4, 5],
    meta := none }

def wStagePullNoMeta : SerializeDataTransform :=
  { wStage with input := { wStage.input with buffer := some (.ok wBlockNoMeta) },
                index := (3, 9) }

theorem c9_no_meta_keeps_stale_index_witness :
    PullConfig wStagePullNoMeta wBlockNoMeta ∧
    wBlockNoMeta.meta = none ∧
    StaleIndexOnNoMeta wStagePullNoMeta :=
  ⟨⟨rfl, rfl, rfl, rfl, rfl, rfl⟩, rfl,
   c9_no_meta_keeps_stale_index wStagePullNoMeta wBlockNoMeta
     ⟨rfl, rfl, rfl, rfl, rfl, rfl⟩ rfl⟩


/-- Result of driving the stage with a scheduler loop. -/
inductive RunResult where
  | finished (t : SerializeDataTransform) (delivered : List DataBlock)
  | stalled (t : SerializeDataTransform) (pending : List DataBlock)
      (delivered : List DataBlock)
  | failed (e : ErrorCode) (t : SerializeDataTransform)
      (delivered : List DataBlock)

/-- Scheduler configuration: the stage plus the environment (pending
upstream units, delivered downstream units). -/
structure SchedState where
  t : SerializeDataTransform
  pending : List DataBlock
  delivered : List DataBlock

inductive StepResult where
  | next (s : SchedState)
  | halt (r : RunResult)

/-- One scheduler tick, dispatching per the event contract with a prompt
environment: upstream feeds the next pending unit (or marks the input
finished) on `NeedData`; downstream consumes the pushed unit and re-arms
the port on `NeedConsume`. -/
def sched_step (c : Collab) (s : SchedState) : StepResult :=
  match s.t.event with
  | (t', .error e) => .halt (.failed e t' s.delivered)
  | (t', .ok ev) =>
    match ev with
    | .Finished => .halt (.finished t' s.delivered)
    | .Sync =>
      match SerializeDataTransform.process c t' with
      | (t'', .ok _) => .next ⟨t'', s.pending, s.delivered⟩
      | (t'', .error e) => .halt (.failed e t'' s.delivered)
    | .Async =>
      match t'.async_process with
      | (t'', .ok _) => .next ⟨t'', s.pending, s.delivered⟩
      | (t'', .error e) => .halt (.failed e t'' s.delivered)
    | .NeedData =>
      match s.pending with
      | [] => .next ⟨{ t' with input.finished := true }, [], s.delivered⟩
      | b :: rest =>
        .next ⟨{ t' with input.buffer := some (.ok b),
                         input.need_data := false }, rest, s.delivered⟩
    | .NeedConsume =>
      match t'.output.buffer with
      | some d =>
        .next ⟨{ t' with output.buffer := none, output.need_data := true },
               s.pending, s.delivered ++ [d]⟩
      | none => .next ⟨{ t' with output.need_data := true }, s.pending,
                       s.delivered⟩

/-- The fueled scheduler loop. -/
def sched (c : Collab) : Nat → SchedState → RunResult
  | 0, s => .stalled s.t s.pending s.delivered
  | fuel + 1, s =>
    match sched_step c s with
    | .halt r => r
    | .next s' => sched c fuel s'

lemma sched_succ_next (c : Collab) (fuel : Nat) (s s' : SchedState)
    (h : sched_step c s = .next s') :
    sched c (fuel + 1) s = sched c fuel s' := by
  simp [sched, h]

lemma sched_succ_halt (c : Collab) (fuel : Nat) (s : SchedState)
    (r : RunResult) (h : sched_step c s = .halt r) :
    sched c (fuel + 1) s = r := by
  simp [sched, h]

/-- Idle configuration: nothing in flight, both ports open and ready. -/
def Idle (t : SerializeDataTransform) : Prop :=
  t.state = State.Consume ∧
  t.output_data = none ∧
  t.input.buffer = none ∧
  t.input.finished = false ∧
  t.output.buffer = none ∧
  t.output.need_data = true ∧
  t.output.finished = false

inductive MutTag where
  | doNothing
  | deleted
  | replaced
deriving DecidableEq, Repr

def Mutation.tag : Mutation → MutTag
  | .DoNothing => .doNothing
  | .Deleted => .deleted
  | .Replaced _ => .replaced

/-- The index/variant summary of an emitted outcome block. -/
def outcome_summary (b : DataBlock) : Option (BlockIndex × MutTag) :=
  match b.meta with
  | some (.mutationTransform m) => some (m.index, m.op.tag)
  | _ => none

/-- The outcome block emitted for one unit: zero columns, only the
`MutationTransformMeta` tag. -/
def outcome_block (idx : BlockIndex) (op : Mutation) : DataBlock :=
  DataBlock.empty_with_meta (BlockMetaInfo.mutationTransform
    (MutationTransformMeta.create idx op))

lemma event_needdata (t : SerializeDataTransform)
    (h1 : t.state = State.Consume) (h2 : t.output_data = none)
    (h3 : t.input.buffer = none) (h4 : t.input.finished = false)
    (h5 : t.output.buffer = none) (h6 : t.output.need_data = true)
    (h7 : t.output.finished = false) :
    t.event = ({ t with input.need_data := true }, .ok Event.NeedData) := by
  simp [SerializeDataTransform.event, h1, h2, h3, h4, h5, h6, h7,
    OutputPort.is_finished, OutputPort.can_push, InputPort.is_finished,
    InputPort.has_data, InputPort.set_need_data]

lemma event_pull_nometa (t : SerializeDataTransform) (b : DataBlock)
    (h1 : t.state = State.Consume) (h2 : t.output_data = none)
    (hb : t.input.buffer = some (.ok b)) (h4 : t.input.finished = false)
    (h5 : t.output.buffer = none) (h6 : t.output.need_data = true)
    (h7 : t.output.finished = false) (hm : b.meta = none) :
    t.event = ({ t with input.buffer := none,
                        state := State.Output Mutation.DoNothing },
               .ok Event.Sync) := by
  simp [SerializeDataTransform.event, SerializeDataTransform.pull_one_unit,
    h1, h2, hb, h4, h5, h6, h7, hm, DataBlock.take_meta,
    OutputPort.is_finished, OutputPort.can_push, InputPort.is_finished,
    InputPort.has_data]

lemma event_pull_deleted (t : SerializeDataTransform) (b : DataBlock)
    (sm : SerializeDataMeta)
    (h1 : t.state = State.Consume) (h2 : t.output_data = none)
    (hb : t.input.buffer = some (.ok b)) (h4 : t.input.finished = false)
    (h5 : t.output.buffer = none) (h6 : t.output.need_data = true)
    (h7 : t.output.finished = false)
    (hm : b.meta = some (BlockMetaInfo.serializeData sm))
    (hr : b.num_rows = 0) :
    t.event = ({ t with input.buffer := none, index := sm.index,
                        origin_stats := sm.cluster_stats,
                        state := State.Output Mutation.Deleted },
               .ok Event.Sync) := by
  simp [SerializeDataTransform.event, SerializeDataTransform.pull_one_unit,
    h1, h2, hb, h4, h5, h6, h7, hm, hr, DataBlock.take_meta,
    SerializeDataMeta.from_meta, DataBlock.is_empty,
    OutputPort.is_finished, OutputPort.can_push, InputPort.is_finished,
    InputPort.has_data]

lemma event_pull_serialize (t : SerializeDataTransform) (b : DataBlock)
    (sm : SerializeDataMeta)
    (h1 : t.state = State.Consume) (h2 : t.output_data = none)
    (hb : t.input.buffer = some (.ok b)) (h4 : t.input.finished = false)
    (h5 : t.output.buffer = none) (h6 : t.output.need_data = true)
    (h7 : t.output.finished = false)
    (hm : b.meta = some (BlockMetaInfo.serializeData sm))
    (hr : b.num_rows ≠ 0) :
    t.event = ({ t with input.buffer := none, index := sm.index,
                        origin_stats := sm.cluster_stats,
                        state := State.NeedSerialize { b with meta := none } },
               .ok Event.Sync) := by
  simp [SerializeDataTransform.event, SerializeDataTransform.pull_one_unit,
    h1, h2, hb, h4, h5, h6, h7, hm, hr, DataBlock.take_meta,
    SerializeDataMeta.from_meta, DataBlock.is_empty,
    OutputPort.is_finished, OutputPort.can_push, InputPort.is_finished,
    InputPort.has_data]

lemma event_push (t : SerializeDataTransform) (d : DataBlock)
    (h1 : t.state = State.Consume) (h2 : t.output_data = some d)
    (h5 : t.output.buffer = none) (h6 : t.output.need_data = true)
    (h7 : t.output.finished = false) :
    t.event = ({ t with output_data := none,
                        output.buffer := some d,
                        output.need_data := false }, .ok Event.NeedConsume) := by
  simp [SerializeDataTransform.event, h1, h2, h5, h6, h7,
    OutputPort.is_finished, OutputPort.can_push, OutputPort.push_data]

lemma event_input_finished (t : SerializeDataTransform)
    (h1 : t.state = State.Consume) (h2 : t.output_data = none)
    (hif : t.input.finished = true)
    (h5 : t.output.buffer = none) (h6 : t.output.need_data = true)
    (h7 : t.output.finished = false) :
    t.event = ({ t with output.finished_up := true }, .ok Event.Finished) := by
  simp [SerializeDataTransform.event, h1, h2, hif, h5, h6, h7,
    OutputPort.is_finished, OutputPort.can_push, InputPort.is_finished,
    OutputPort.finish]

lemma event_state_serialized (t : SerializeDataTransform)
    (ss : SerializeState) (bm : BlockMeta)
    (hst : t.state = State.Serialized ss bm) :
    t.event = (t, .ok Event.Async) := by
  simp [SerializeDataTransform.event, hst]

lemma event_state_output (t : SerializeDataTransform) (op : Mutation)
    (hst : t.state = State.Output op) :
    t.event = (t, .ok Event.Sync) := by
  simp [SerializeDataTransform.event, hst]

lemma step_feed (c : Collab) (t : SerializeDataTransform) (b : DataBlock)
    (pending delivered : List DataBlock)
    (h1 : t.state = State.Consume) (h2 : t.output_data = none)
    (h3 : t.input.buffer = none) (h4 : t.input.finished = false)
    (h5 : t.output.buffer = none) (h6 : t.output.need_data = true)
    (h7 : t.output.finished = false) :
    sched_step c ⟨t, b :: pending, delivered⟩ =
      .next ⟨{ t with input.buffer := some (.ok b),
                      input.need_data := false }, pending, delivered⟩ := by
  simp [sched_step, event_needdata t h1 h2 h3 h4 h5 h6 h7]

lemma step_nometa (c : Collab) (t : SerializeDataTransform) (b : DataBlock)
    (pending delivered : List DataBlock)
    (h1 : t.state = State.Consume) (h2 : t.output_data = none)
    (hb : t.input.buffer = some (.ok b)) (h4 : t.input.finished = false)
    (h5 : t.output.buffer = none) (h6 : t.output.need_data = true)
    (h7 : t.output.finished = false) (hm : b.meta = none) :
    sched_step c ⟨t, pending, delivered⟩ =
      .next ⟨{ t with input.buffer := none, state := State.Consume,
                      output_data := some (DataBlock.empty_with_meta
                        (BlockMetaInfo.mutationTransform
                          (MutationTransformMeta.create t.index
                            Mutation.DoNothing))) }, pending, delivered⟩ := by
  simp [sched_step, event_pull_nometa t b h1 h2 hb h4 h5 h6 h7 hm,
    SerializeDataTransform.process, MutationTransformMeta.create, h1]

lemma step_deleted (c : Collab) (t : SerializeDataTransform) (b : DataBlock)
    (sm : SerializeDataMeta) (pending delivered : List DataBlock)
    (h1 : t.state = State.Consume) (h2 : t.output_data = none)
    (hb : t.input.buffer = some (.ok b)) (h4 : t.input.finished = false)
    (h5 : t.output.buffer = none) (h6 : t.output.need_data = true)
    (h7 : t.output.finished = false)
    (hm : b.meta = some (BlockMetaInfo.serializeData sm))
    (hr : b.num_rows = 0) :
    sched_step c ⟨t, pending, delivered⟩ =
      .next ⟨{ t with input.buffer := none, index := sm.index,
                      origin_stats := sm.cluster_stats,
                      state := State.Consume,
                      output_data := some (outcome_block sm.index
                        Mutation.Deleted) }, pending, delivered⟩ := by
  simp [sched_step, event_pull_deleted t b sm h1 h2 hb h4 h5 h6 h7 hm hr,
    SerializeDataTransform.process, outcome_block]

lemma step_serialize (c : Collab) (t : SerializeDataTransform)
    (b : DataBlock) (sm : SerializeDataMeta)
    (pending delivered : List DataBlock)
    (cs : Option ClusterStatistics) (bis : BloomIndexState) (cdc : Nat)
    (colst : Nat) (bytes : Bytes) (fs md cm : Nat)
    (h1 : t.state = State.Consume) (h2 : t.output_data = none)
    (hb : t.input.buffer = some (.ok b)) (h4 : t.input.finished = false)
    (h5 : t.output.buffer = none) (h6 : t.output.need_data = true)
    (h7 : t.output.finished = false)
    (hm : b.meta = some (BlockMetaInfo.serializeData sm))
    (hr : b.num_rows ≠ 0)
    (hcs : t.cluster_stats_gen { b with meta := none } sm.cluster_stats =
      .ok cs)
    (hbis : c.bloom_index_try_create { b with meta := none }
      (t.location_gen.block_bloom_index_location t.location_gen.block_id) =
      .ok (bis, cdc))
    (hcolst : c.gen_columns_statistics { b with meta := none } (some cdc) =
      .ok colst)
    (hpq : c.blocks_to_parquet b.schema { b with meta := none }
      t.table_compression = .ok (bytes, fs, md))
    (hcm : c.column_metas md = .ok cm) :
    sched_step c ⟨t, pending, delivered⟩ =
      .next ⟨{ t with input.buffer := none, index := sm.index,
                      origin_stats := none,
                      state := State.Serialized
                        { block_data := bytes,
                          block_location := t.location_gen.block_location.1,
                          index_data := bis.data,
                          index_location := bis.location.1 }
                        { row_count := b.num_rows,
                          block_size := b.memory_size,
                          file_size := fs, col_stats := colst,
                          col_metas := cm, cluster_stats := cs,
                          location := t.location_gen.block_location,
                          bloom_filter_index_location := some bis.location,
                          bloom_filter_index_size := bis.size,
                          compression := t.table_compression } },
             pending, delivered⟩ := by
  simp [sched_step, event_pull_serialize t b sm h1 h2 hb h4 h5 h6 h7 hm hr,
    SerializeDataTransform.process,
    TableMetaLocationGenerator.gen_block_location, hcs, hbis, hcolst, hpq,
    hcm]

lemma step_async (c : Collab) (t : SerializeDataTransform)
    (ss : SerializeState) (bm : BlockMeta)
    (pending delivered : List DataBlock)
    (hst : t.state = State.Serialized ss bm)
    (hfail : ∀ l, t.dal.failOn l = false) :
    sched_step c ⟨t, pending, delivered⟩ =
      .next ⟨{ t with state := State.Output (Mutation.Replaced bm),
                      dal.store := t.dal.store ++
                        [(ss.block_location, ss.block_data),
                         (ss.index_location, ss.index_data)] },
             pending, delivered⟩ := by
  simp [sched_step, event_state_serialized t ss bm hst,
    SerializeDataTransform.async_process, hst, write_data, hfail]

lemma step_output (c : Collab) (t : SerializeDataTransform) (op : Mutation)
    (pending delivered : List DataBlock)
    (hst : t.state = State.Output op) :
    sched_step c ⟨t, pending, delivered⟩ =
      .next ⟨{ t with state := State.Consume,
                      output_data := some (outcome_block t.index op) },
             pending, delivered⟩ := by
  simp [sched_step, event_state_output t op hst,
    SerializeDataTransform.process, hst, outcome_block]

lemma step_push (c : Collab) (t : SerializeDataTransform) (d : DataBlock)
    (pending delivered : List DataBlock)
    (h1 : t.state = State.Consume) (h2 : t.output_data = some d)
    (h5 : t.output.buffer = none) (h6 : t.output.need_data = true)
    (h7 : t.output.finished = false) :
    sched_step c ⟨t, pending, delivered⟩ =
      .next ⟨{ t with output_data := none, output.buffer := none,
                      output.need_data := true },
             pending, delivered ++ [d]⟩ := by
  simp [sched_step, event_push t d h1 h2 h5 h6 h7]

lemma step_finish_empty (c : Collab) (t : SerializeDataTransform)
    (delivered : List DataBlock)
    (h1 : t.state = State.Consume) (h2 : t.output_data = none)
    (h3 : t.input.buffer = none) (h4 : t.input.finished = false)
    (h5 : t.output.buffer = none) (h6 : t.output.need_data = true)
    (h7 : t.output.finished = false) :
    sched_step c ⟨t, [], delivered⟩ =
      .next ⟨{ t with input.need_data := true, input.finished := true },
             [], delivered⟩ := by
  simp [sched_step, event_needdata t h1 h2 h3 h4 h5 h6 h7]

lemma step_finish_halt (c : Collab) (t : SerializeDataTransform)
    (pending delivered : List DataBlock)
    (h1 : t.state = State.Consume) (h2 : t.output_data = none)
    (hif : t.input.finished = true)
    (h5 : t.output.buffer = none) (h6 : t.output.need_data = true)
    (h7 : t.output.finished = false) :
    sched_step c ⟨t, pending, delivered⟩ =
      .halt (.finished { t with output.finished_up := true } delivered) := by
  simp [sched_step, event_input_finished t h1 h2 hif h5 h6 h7]

def next_index (idx : BlockIndex) (b : DataBlock) : BlockIndex :=
  match b.meta with
  | some (.serializeData sm) => sm.index
  | _ => idx

def unit_tag (b : DataBlock) : MutTag :=
  match b.meta with
  | some (.serializeData _) =>
    if b.num_rows = 0 then MutTag.deleted else MutTag.replaced
  | _ => MutTag.doNothing

def unit_cost (b : DataBlock) : Nat :=
  match b.meta with
  | some (.serializeData _) => if b.num_rows = 0 then 3 else 5
  | _ => 3

def run_fuel : List DataBlock → Nat
  | [] => 2
  | b :: rest => unit_cost b + run_fuel rest

/-- The summary the spec expects for each input unit, threading the
stored index (a metadata-less unit reuses the previously stored index). -/
def expected_summaries : BlockIndex → List DataBlock →
    List (BlockIndex × MutTag)
  | _, [] => []
  | idx, b :: rest =>
    match b.meta with
    | none => (idx, MutTag.doNothing) :: expected_summaries idx rest
    | some (.serializeData sm) =>
      (sm.index, if b.num_rows = 0 then MutTag.deleted else MutTag.replaced) ::
        expected_summaries sm.index rest
    | some _ => []

/-- Collaborators that always succeed (the claim no-error hypothesis). -/
def TotalCollab (c : Collab) : Prop :=
  (∀ b l, ∃ r, c.bloom_index_try_create b l = .ok r) ∧
  (∀ b dc, ∃ r, c.gen_columns_statistics b dc = .ok r) ∧
  (∀ s b tc, ∃ r, c.blocks_to_parquet s b tc = .ok r) ∧
  (∀ m, ∃ r, c.column_metas m = .ok r)

/-- A well-formed input stream: every metadata tag is a
`SerializeDataMeta` (the only kind this pipeline attaches). -/
def WellFormedStream (L : List DataBlock) : Prop :=
  ∀ b ∈ L, b.meta = none ∨
    ∃ sm, b.meta = some (BlockMetaInfo.serializeData sm)

lemma expected_cons (idx : BlockIndex) (b : DataBlock) (L : List DataBlock)
    (hb : b.meta = none ∨
      ∃ sm, b.meta = some (BlockMetaInfo.serializeData sm)) :
    expected_summaries idx (b :: L) =
      (next_index idx b, unit_tag b) ::
        expected_summaries (next_index idx b) L := by
  rcases hb with hm | ⟨sm, hm⟩ <;>
    simp [expected_summaries, next_index, unit_tag, hm]

lemma sched_unit (c : Collab) (t : SerializeDataTransform) (b : DataBlock)
    (pending delivered : List DataBlock) (fuel : Nat)
    (hI : Idle t) (hC : TotalCollab c)
    (hS1 : ∀ blk os, ∃ r, t.cluster_stats_gen blk os = .ok r)
    (hS2 : ∀ l, t.dal.failOn l = false)
    (hb : b.meta = none ∨
      ∃ sm, b.meta = some (BlockMetaInfo.serializeData sm)) :
    ∃ t' out,
      sched c (unit_cost b + fuel) ⟨t, b :: pending, delivered⟩ =
        sched c fuel ⟨t', pending, delivered ++ [out]⟩ ∧
      Idle t' ∧
      t'.cluster_stats_gen = t.cluster_stats_gen ∧
      t'.dal.failOn = t.dal.failOn ∧
      t'.index = next_index t.index b ∧
      outcome_summary out = some (next_index t.index b, unit_tag b) := by
  obtain ⟨h1, h2, h3, h4, h5, h6, h7⟩ := hI
  rcases hb with hm | ⟨sm, hm⟩
  · -- no control metadata: DoNothing
    rw [show unit_cost b + fuel = fuel + 3 by
      simp [unit_cost, hm, Nat.add_comm]]
    refine ⟨{ t with input.buffer := none, input.need_data := false,
                     state := State.Consume, output_data := none,
                     output.buffer := none, output.need_data := true },
            outcome_block t.index Mutation.DoNothing,
            ?_, ?_, ?_, ?_, ?_, ?_⟩
    · calc sched c (fuel + 3) ⟨t, b :: pending, delivered⟩
          = sched c (fuel + 2)
              ⟨{ t with input.buffer := some (.ok b),
                        input.need_data := false }, pending, delivered⟩ :=
            sched_succ_next c (fuel + 2) _ _
              (step_feed c t b pending delivered h1 h2 h3 h4 h5 h6 h7)
        _ = sched c (fuel + 1)
              ⟨{ t with input.buffer := none, input.need_data := false,
                        state := State.Consume,
                        output_data := some (outcome_block t.index
                          Mutation.DoNothing) }, pending, delivered⟩ :=
            sched_succ_next c (fuel + 1) _ _
              (step_nometa c { t with input.buffer := some (.ok b),
                                      input.need_data := false }
                b pending delivered h1 h2 rfl h4 h5 h6 h7 hm)
        _ = sched c fuel
              ⟨{ t with input.buffer := none, input.need_data := false,
                        state := State.Consume, output_data := none,
                        output.buffer := none, output.need_data := true },
               pending,
               delivered ++ [outcome_block t.index Mutation.DoNothing]⟩ :=
            sched_succ_next c fuel _ _
              (step_push c { t with input.buffer := none,
                                    input.need_data := false,
                                    state := State.Consume,
                                    output_data := some (outcome_block t.index
                                      Mutation.DoNothing) }
                (outcome_block t.index Mutation.DoNothing)
                pending delivered rfl rfl h5 h6 h7)
    · exact ⟨rfl, rfl, rfl, h4, rfl, rfl, h7⟩
    · rfl
    · rfl
    · simp [next_index, hm]
    · simp [outcome_summary, next_index, unit_tag, hm, outcome_block,
        MutationTransformMeta.create, DataBlock.empty_with_meta,
        Mutation.tag]
  · rcases Nat.eq_zero_or_pos b.num_rows with hr | hrpos
    · -- metadata and zero rows: Deleted
      rw [show unit_cost b + fuel = fuel + 3 by
        simp [unit_cost, hm, hr, Nat.add_comm]]
      refine ⟨{ t with input.buffer := none, input.need_data := false,
                       index := sm.index, origin_stats := sm.cluster_stats,
                       state := State.Consume, output_data := none,
                       output.buffer := none, output.need_data := true },
              outcome_block sm.index Mutation.Deleted,
              ?_, ?_, ?_, ?_, ?_, ?_⟩
      · calc sched c (fuel + 3) ⟨t, b :: pending, delivered⟩
            = sched c (fuel + 2)
                ⟨{ t with input.buffer := some (.ok b),
                          input.need_data := false }, pending, delivered⟩ :=
              sched_succ_next c (fuel + 2) _ _
                (step_feed c t b pending delivered h1 h2 h3 h4 h5 h6 h7)
          _ = sched c (fuel + 1)
                ⟨{ t with input.buffer := none, input.need_data := false,
                          index := sm.index,
                          origin_stats := sm.cluster_stats,
                          state := State.Consume,
                          output_data := some (outcome_block sm.index
                            Mutation.Deleted) }, pending, delivered⟩ :=
              sched_succ_next c (fuel + 1) _ _
                (step_deleted c { t with input.buffer := some (.ok b),
                                         input.need_data := false }
                  b sm pending delivered h1 h2 rfl h4 h5 h6 h7 hm hr)
          _ = sched c fuel
                ⟨{ t with input.buffer := none, input.need_data := false,
                          index := sm.index,
                          origin_stats := sm.cluster_stats,
                          state := State.Consume, output_data := none,
                          output.buffer := none, output.need_data := true },
                 pending,
                 delivered ++ [outcome_block sm.index Mutation.Deleted]⟩ :=
              sched_succ_next c fuel _ _
                (step_push c { t with input.buffer := none,
                                      input.need_data := false,
                                      index := sm.index,
                                      origin_stats := sm.cluster_stats,
                                      state := State.Consume,
                                      output_data := some (outcome_block
                                        sm.index Mutation.Deleted) }
                  (outcome_block sm.index Mutation.Deleted)
                  pending delivered rfl rfl h5 h6 h7)
      · exact ⟨rfl, rfl, rfl, h4, rfl, rfl, h7⟩
      · rfl
      · rfl
      · simp [next_index, hm]
      · simp [outcome_summary, next_index, unit_tag, hm, hr, outcome_block,
          MutationTransformMeta.create, DataBlock.empty_with_meta,
          Mutation.tag]
    · -- metadata and at least one row: serialize, write, Replaced
      have hr : b.num_rows ≠ 0 := Nat.pos_iff_ne_zero.mp hrpos
      obtain ⟨cs, hcs⟩ := hS1 { b with meta := none } sm.cluster_stats
      obtain ⟨⟨bis, cdc⟩, hbis⟩ := hC.1 { b with meta := none }
        (t.location_gen.block_bloom_index_location t.location_gen.block_id)
      obtain ⟨colst, hcolst⟩ := hC.2.1 { b with meta := none } (some cdc)
      obtain ⟨⟨bytes, fs, md⟩, hpq⟩ := hC.2.2.1 b.schema
        { b with meta := none } t.table_compression
      obtain ⟨cm, hcm⟩ := hC.2.2.2 md
      rw [show unit_cost b + fuel = fuel + 5 by
        simp [unit_cost, hm, hr, Nat.add_comm]]
      refine ⟨{ t with input.buffer := none, input.need_data := false,
                       index := sm.index, origin_stats := none,
                       state := State.Consume, output_data := none,
                       output.buffer := none, output.need_data := true,
                       dal.store := t.dal.store ++
                         [(t.location_gen.block_location.1, bytes),
                          (bis.location.1, bis.data)] },
              outcome_block sm.index (Mutation.Replaced
                { row_count := b.num_rows, block_size := b.memory_size,
                  file_size := fs, col_stats := colst, col_metas := cm,
                  cluster_stats := cs,
                  location := t.location_gen.block_location,
                  bloom_filter_index_location := some bis.location,
                  bloom_filter_index_size := bis.size,
                  compression := t.table_compression }),
              ?_, ?_, ?_, ?_, ?_, ?_⟩
      · calc sched c (fuel + 5) ⟨t, b :: pending, delivered⟩
            = sched c (fuel + 4)
                ⟨{ t with input.buffer := some (.ok b),
                          input.need_data := false }, pending, delivered⟩ :=
              sched_succ_next c (fuel + 4) _ _
                (step_feed c t b pending delivered h1 h2 h3 h4 h5 h6 h7)
          _ = sched c (fuel + 3)
                ⟨{ t with input.buffer := none, input.need_data := false,
                          index := sm.index, origin_stats := none,
                          state := State.Serialized
                            { block_data := bytes,
                              block_location :=
                                t.location_gen.block_location.1,
                              index_data := bis.data,
                              index_location := bis.location.1 }
                            { row_count := b.num_rows,
                              block_size := b.memory_size,
                              file_size := fs, col_stats := colst,
                              col_metas := cm, cluster_stats := cs,
                              location := t.location_gen.block_location,
                              bloom_filter_index_location :=
                                some bis.location,
                              bloom_filter_index_size := bis.size,
                              compression := t.table_compression } },
                 pending, delivered⟩ :=
              sched_succ_next c (fuel + 3) _ _
                (step_serialize c { t with input.buffer := some (.ok b),
                                           input.need_data := false }
                  b sm pending delivered cs bis cdc colst bytes fs md cm
                  h1 h2 rfl h4 h5 h6 h7 hm hr hcs hbis hcolst hpq hcm)
          _ = sched c (fuel + 2)
                ⟨{ t with input.buffer := none, input.need_data := false,
                          index := sm.index, origin_stats := none,
                          state := State.Output (Mutation.Replaced
                            { row_count := b.num_rows,
                              block_size := b.memory_size,
                              file_size := fs, col_stats := colst,
                              col_metas := cm, cluster_stats := cs,
                              location := t.location_gen.block_location,
                              bloom_filter_index_location :=
                                some bis.location,
                              bloom_filter_index_size := bis.size,
                              compression := t.table_compression }),
                          dal.store := t.dal.store ++
                            [(t.location_gen.block_location.1, bytes),
                             (bis.location.1, bis.data)] },
                 pending, delivered⟩ :=
              sched_succ_next c (fuel + 2) _ _
                (step_async c
                  { t with input.buffer := none, input.need_data := false,
                           index := sm.index, origin_stats := none,
                           state := State.Serialized
                             { block_data := bytes, block_location := t.location_gen.block_location.1, index_data := bis.data, index_location := bis.location.1 }
                             { row_count := b.num_rows, block_size := b.memory_size, file_size := fs, col_stats := colst, col_metas := cm, cluster_stats := cs, location := t.location_gen.block_location, bloom_filter_index_location := some bis.location, bloom_filter_index_size := bis.size, compression := t.table_compression } }
                  { block_data := bytes, block_location := t.location_gen.block_location.1, index_data := bis.data, index_location := bis.location.1 }
                  { row_count := b.num_rows, block_size := b.memory_size, file_size := fs, col_stats := colst, col_metas := cm, cluster_stats := cs, location := t.location_gen.block_location, bloom_filter_index_location := some bis.location, bloom_filter_index_size := bis.size, compression := t.table_compression }
                  pending delivered rfl hS2)
          _ = sched c (fuel + 1)
                ⟨{ t with input.buffer := none, input.need_data := false,
                          index := sm.index, origin_stats := none,
                          state := State.Consume,
                          output_data := some (outcome_block sm.index
                            (Mutation.Replaced
                              { row_count := b.num_rows,
                                block_size := b.memory_size,
                                file_size := fs, col_stats := colst,
                                col_metas := cm, cluster_stats := cs,
                                location := t.location_gen.block_location,
                                bloom_filter_index_location :=
                                  some bis.location,
                                bloom_filter_index_size := bis.size,
                                compression := t.table_compression })),
                          dal.store := t.dal.store ++
                            [(t.location_gen.block_location.1, bytes),
                             (bis.location.1, bis.data)] },
                 pending, delivered⟩ :=
              sched_succ_next c (fuel + 1) _ _
                (step_output c
                  { t with input.buffer := none, input.need_data := false,
                           index := sm.index, origin_stats := none,
                           state := State.Output (Mutation.Replaced
                             { row_count := b.num_rows, block_size := b.memory_size, file_size := fs, col_stats := colst, col_metas := cm, cluster_stats := cs, location := t.location_gen.block_location, bloom_filter_index_location := some bis.location, bloom_filter_index_size := bis.size, compression := t.table_compression }),
                           dal.store := t.dal.store ++
                             [(t.location_gen.block_location.1, bytes),
                              (bis.location.1, bis.data)] }
                  (Mutation.Replaced { row_count := b.num_rows, block_size := b.memory_size, file_size := fs, col_stats := colst, col_metas := cm, cluster_stats := cs, location := t.location_gen.block_location, bloom_filter_index_location := some bis.location, bloom_filter_index_size := bis.size, compression := t.table_compression })
                  pending delivered rfl)
          _ = sched c fuel
                ⟨{ t with input.buffer := none, input.need_data := false,
                          index := sm.index, origin_stats := none,
                          state := State.Consume, output_data := none,
                          output.buffer := none, output.need_data := true,
                          dal.store := t.dal.store ++
                            [(t.location_gen.block_location.1, bytes),
                             (bis.location.1, bis.data)] },
                 pending,
                 delivered ++ [outcome_block sm.index (Mutation.Replaced
                   { row_count := b.num_rows, block_size := b.memory_size,
                     file_size := fs, col_stats := colst, col_metas := cm,
                     cluster_stats := cs,
                     location := t.location_gen.block_location,
                     bloom_filter_index_location := some bis.location,
                     bloom_filter_index_size := bis.size,
                     compression := t.table_compression })]⟩ :=
              sched_succ_next c fuel _ _
                (step_push c
                  { t with input.buffer := none, input.need_data := false,
                           index := sm.index, origin_stats := none,
                           state := State.Consume,
                           output_data := some (outcome_block sm.index
                             (Mutation.Replaced { row_count := b.num_rows, block_size := b.memory_size, file_size := fs, col_stats := colst, col_metas := cm, cluster_stats := cs, location := t.location_gen.block_location, bloom_filter_index_location := some bis.location, bloom_filter_index_size := bis.size, compression := t.table_compression })),
                           dal.store := t.dal.store ++
                             [(t.location_gen.block_location.1, bytes),
                              (bis.location.1, bis.data)] }
                  (outcome_block sm.index (Mutation.Replaced { row_count := b.num_rows, block_size := b.memory_size, file_size := fs, col_stats := colst, col_metas := cm, cluster_stats := cs, location := t.location_gen.block_location, bloom_filter_index_location := some bis.location, bloom_filter_index_size := bis.size, compression := t.table_compression }))
                  pending delivered rfl rfl h5 h6 h7)
      · exact ⟨rfl, rfl, rfl, h4, rfl, rfl, h7⟩
      · rfl
      · rfl
      · simp [next_index, hm]
      · simp [outcome_summary, next_index, unit_tag, hm, hr, outcome_block,
          MutationTransformMeta.create, DataBlock.empty_with_meta,
          Mutation.tag]

lemma sched_end (c : Collab) (t : SerializeDataTransform)
    (delivered : List DataBlock) (hI : Idle t) :
    sched c 2 ⟨t, [], delivered⟩ =
      .finished { t with input.need_data := true, input.finished := true,
                         output.finished_up := true } delivered := by
  obtain ⟨h1, h2, h3, h4, h5, h6, h7⟩ := hI
  rw [sched_succ_next c 1 _ _
    (step_finish_empty c t delivered h1 h2 h3 h4 h5 h6 h7)]
  rw [sched_succ_halt c 0 _ _
    (step_finish_halt c { t with input.need_data := true,
                                 input.finished := true }
      [] delivered h1 h2 rfl h5 h6 h7)]

lemma sched_run (c : Collab) :
    ∀ (L : List DataBlock) (t : SerializeDataTransform)
      (delivered : List DataBlock),
      Idle t → TotalCollab c →
      (∀ blk os, ∃ r, t.cluster_stats_gen blk os = .ok r) →
      (∀ l, t.dal.failOn l = false) →
      WellFormedStream L →
      ∃ tf outs,
        sched c (run_fuel L) ⟨t, L, delivered⟩ =
          .finished tf (delivered ++ outs) ∧
        outs.map outcome_summary =
          (expected_summaries t.index L).map some := by
  intro L
  induction L with
  | nil =>
    intro t delivered hI _ _ _ _
    exact ⟨_, [], by simpa using sched_end c t delivered hI,
      by simp [expected_summaries]⟩
  | cons b L ih =>
    intro t delivered hI hC hS1 hS2 hW
    obtain ⟨t', out, heq, hI', hcs', hdal', hidx', hsum'⟩ :=
      sched_unit c t b L delivered (run_fuel L) hI hC hS1 hS2
        (hW b (by simp))
    obtain ⟨tf, outs, heq2, hsum2⟩ := ih t' (delivered ++ [out]) hI' hC
      (by rw [hcs']; exact hS1) (by rw [hdal']; exact hS2)
      (fun x hx => hW x (by simp [hx]))
    refine ⟨tf, out :: outs, ?_, ?_⟩
    · rw [show run_fuel (b :: L) = unit_cost b + run_fuel L from rfl, heq,
        heq2]
      simp
    · rw [expected_cons t.index b L (hW b (by simp))]
      simp only [List.map_cons, hsum', hidx'.symm]
      rw [hsum2, hidx']

lemma expected_summaries_length (L : List DataBlock) :
    ∀ idx, WellFormedStream L →
      (expected_summaries idx L).length = L.length := by
  induction L with
  | nil => intro idx _; rfl
  | cons b L ih =>
    intro idx hW
    rcases hW b (by simp) with hm | ⟨sm, hm⟩ <;>
      simp [expected_summaries, hm,
        ih _ (fun x hx => hW x (by simp [hx]))]

/-- The property of claim C6: driving the stage to completion over input
stream `L` with a prompt scheduler and no errors delivers exactly
`L.length` outcome blocks, in input order, each summarized as the spec
prescribes for the corresponding input unit. -/
def OrderedDelivery (c : Collab) (t : SerializeDataTransform)
    (L : List DataBlock) : Prop :=
  ∃ tf outs,
    sched c (run_fuel L) ⟨t, L, []⟩ = RunResult.finished tf outs ∧
    outs.length = L.length ∧
    outs.map outcome_summary = (expected_summaries t.index L).map some

/-- C6: for every input stream driven to completion (scheduler
dispatching per the event contract, collaborators succeeding, downstream
not finishing early), exactly N outcomes are pushed and the i-th outcome
corresponds to the i-th input unit. -/
theorem c6_ordered_delivery (c : Collab) (t : SerializeDataTransform)
    (L : List DataBlock) (hI : Idle t) (hC : TotalCollab c)
    (hS1 : ∀ blk os, ∃ r, t.cluster_stats_gen blk os = .ok r)
    (hS2 : ∀ l, t.dal.failOn l = false)
    (hW : WellFormedStream L) : OrderedDelivery c t L := by
  obtain ⟨tf, outs, heq, hsum⟩ := sched_run c L t [] hI hC hS1 hS2 hW
  refine ⟨tf, outs, by simpa using heq, ?_, hsum⟩
  have hlen := congrArg List.length hsum
  simpa [expected_summaries_length L t.index hW] using hlen

def wBlockDel : DataBlock :=
  { num_rows := 0, memory_size := 0, schema := 1, columns := [],
    meta := some (.serializeData { index := (2, 5), cluster_stats := some 3 }) }

def wBlocks : List DataBlock := [wBlockNoMeta, wBlock, wBlockDel]

theorem c6_ordered_delivery_witness :
    Idle wStage ∧ WellFormedStream wBlocks ∧ TotalCollab wCollab ∧
    OrderedDelivery wCollab wStage wBlocks := by
  have hW : WellFormedStream wBlocks := by
    intro b hb
    simp [wBlocks] at hb
    rcases hb with rfl | rfl | rfl
    · left; rfl
    · right; exact ⟨_, rfl⟩
    · right; exact ⟨_, rfl⟩
  refine ⟨⟨rfl, rfl, rfl, rfl, rfl, rfl, rfl⟩, hW, ?_, ?_⟩
  · exact ⟨fun b l => ⟨_, rfl⟩, fun b dc => ⟨_, rfl⟩,
      fun s b tc => ⟨_, rfl⟩, fun m => ⟨_, rfl⟩⟩
  · exact c6_ordered_delivery wCollab wStage wBlocks
      ⟨rfl, rfl, rfl, rfl, rfl, rfl, rfl⟩
      ⟨fun b l => ⟨_, rfl⟩, fun b dc => ⟨_, rfl⟩,
       fun s b tc => ⟨_, rfl⟩, fun m => ⟨_, rfl⟩⟩
      (fun blk os => ⟨os, rfl⟩) (fun l => rfl) hW
